import Mathlib

/-!
Verification of the spok documentation task-runner script (noxfile).

The script exposes three sessions: `build`, `serve` and `publish`. Each is
embedded here as a function from the process environment to the trace of
observable actions it performs (package installs, subprocess runs, browser
opens, a session-terminating error), together with a failure flag.

The embedding mirrors the Python source line by line. In particular,
`os.getenv` returns `none` for an unset variable, and Python truthiness
(`bool(os.getenv("CI"))`, `if not (token := os.getenv("GITHUB_TOKEN"))`)
treats the empty string like absence; this is captured by `truthy`.
-/

namespace Spok

/-- The process environment: a partial map from variable names to values,
as seen by `os.getenv`. -/
def Env : Type := String → Option String

/-- `os.getenv`: look a variable up in the environment. -/
def getenv (e : Env) (k : String) : Option String := e k

/-- Python truthiness of an `Optional[str]`: `None` and the empty string
are falsy, every other string is truthy. -/
def truthy : Option String → Bool
  | none => false
  | some s => s != ""

/-- `ON_CI = bool(os.getenv("CI"))`, evaluated once at module load. -/
def ON_CI (e : Env) : Bool := truthy (getenv e "CI")

/-- `DOCS_DEPS`: the fixed list of documentation build dependencies. -/
def DOCS_DEPS : List String :=
  ["mkdocs", "mkdocs-material", "mkdocs-include-markdown-plugin"]

/-- `nox.options.sessions = ("serve",)`: the sessions run when no task
name is given on the command line. -/
def nox_options_sessions : List String := ["serve"]

/-- An observable action performed by a session: a `session.install`
call, a `session.run` call (the flag records `external=True`), a
`webbrowser.open` call, or a `session.error` call. -/
inductive Action where
  | install (args : List String)
  | run (args : List String) (ext : Bool)
  | browserOpen (url : String)
  | error (msg : String)
  deriving DecidableEq, Repr

/-- The result of running a session: the ordered trace of actions and
whether the session terminated in failure (non-zero exit). -/
structure Outcome where
  actions : List Action
  failed : Bool
  deriving DecidableEq, Repr

/-- Arguments of the `session.install("--upgrade", "pip", "setuptools",
"wheel")` call shared by all three sessions. -/
def pipUpgradeArgs : List String := ["--upgrade", "pip", "setuptools", "wheel"]

/-- The fixed local URL opened by `serve`. -/
def serveURL : String := "http://127.0.0.1:8000/spok/"

/-- The message passed to `session.error` when `GITHUB_TOKEN` is missing. -/
def tokenErrorMsg : String :=
  "Cannot deploy docs without a $GITHUB_TOKEN environment variable"

/-- The authenticated remote URL built from the token in `publish`. -/
def remoteURL (token : String) : String :=
  "https://" ++ token ++ "@github.com/FollowTheProcess/spok.git"

/-- The `build` session: upgrade tooling, install docs dependencies, run
`mkdocs build --clean`. -/
def build (_e : Env) : Outcome :=
  { actions :=
      [Action.install pipUpgradeArgs,
       Action.install DOCS_DEPS,
       Action.run ["mkdocs", "build", "--clean"] false],
    failed := false }

/-- The `serve` session: upgrade tooling, install docs dependencies, open
the browser at the fixed URL, run `mkdocs serve`. -/
def serve (_e : Env) : Outcome :=
  { actions :=
      [Action.install pipUpgradeArgs,
       Action.install DOCS_DEPS,
       Action.browserOpen serveURL,
       Action.run ["mkdocs", "serve"] false],
    failed := false }

/-- The `publish` session: `session.error` (which raises and aborts the
session) when `GITHUB_TOKEN` is unset or falsy; otherwise install
dependencies, then either the CI sequence (git remote add / fetch /
fetch branch / `mkdocs gh-deploy -v --clean --remote-name gh-token`) or
the plain `mkdocs gh-deploy`. -/
def publish (e : Env) : Outcome :=
  match getenv e "GITHUB_TOKEN" with
  | none => { actions := [Action.error tokenErrorMsg], failed := true }
  | some token =>
    if token = "" then
      { actions := [Action.error tokenErrorMsg], failed := true }
    else
      { actions :=
          [Action.install pipUpgradeArgs,
           Action.install DOCS_DEPS] ++
          (if ON_CI e then
            [Action.run ["git", "remote", "add", "gh-token", remoteURL token] true,
             Action.run ["git", "fetch", "gh-token"] true,
             Action.run ["git", "fetch", "gh-token", "gh-pages:gh-pages"] true,
             Action.run ["mkdocs", "gh-deploy", "-v", "--clean",
               "--remote-name", "gh-token"] false]
          else
            [Action.run ["mkdocs", "gh-deploy"] false]),
        failed := false }

/-- Is the action a package-installer invocation? -/
def isInstall : Action → Bool
  | Action.install _ => true
  | _ => false

/-- Is the action a version-control (git) invocation? -/
def isVCS : Action → Bool
  | Action.run ("git" :: _) _ => true
  | _ => false

/-- Is the action a site-generator (mkdocs) invocation? -/
def isGenerator : Action → Bool
  | Action.run ("mkdocs" :: _) _ => true
  | _ => false

/-- Is the action a deploy-type generator invocation? -/
def isDeploy : Action → Bool
  | Action.run ("mkdocs" :: "gh-deploy" :: _) _ => true
  | _ => false

/-- Is the action the blocking `mkdocs serve` invocation? -/
def isServeCmd : Action → Bool
  | Action.run ("mkdocs" :: "serve" :: _) _ => true
  | _ => false

/-- Is the action a browser-open? -/
def isBrowserOpen : Action → Bool
  | Action.browserOpen _ => true
  | _ => false

/-- Does the action carry a `--remote-name` argument? -/
def hasRemoteNameFlag : Action → Bool
  | Action.run args _ => args.contains "--remote-name"
  | _ => false

/-- The argument list of the documentation-dependency install step: the
second installer invocation of the trace (the first being the tooling
upgrade), when it exists. -/
def docsInstallArgs (o : Outcome) : Option (List String) :=
  (o.actions.filterMap fun a =>
    match a with
    | Action.install args => some args
    | _ => none).get? 1

/-- No site-generator invocation occurs before the first install of
`DOCS_DEPS` in the trace. -/
def generatorsAfterDocsInstall (o : Outcome) : Bool :=
  (o.actions.takeWhile fun a => a != Action.install DOCS_DEPS).all
    fun a => !isGenerator a

/-- A concrete environment assigning the given values to `GITHUB_TOKEN`
and `CI` and leaving every other variable unset. -/
def mkEnv (tok ci : Option String) : Env :=
  fun k => if k = "GITHUB_TOKEN" then tok else if k = "CI" then ci else none

/-- Claim C2: for every environment in which the credential is not
present, `publish` fails immediately with the descriptive error and a
non-zero exit, and invokes no installer, no site generator and no
version-control command. -/
theorem publish_missing_token_short_circuit (e : Env)
    (h : getenv e "GITHUB_TOKEN" = none) :
    (publish e).actions = [Action.error tokenErrorMsg] ∧
    (publish e).failed = true ∧
    (publish e).actions.all
      (fun a => !isInstall a && !isGenerator a && !isVCS a) = true := by
  unfold publish
  rw [h]
  exact ⟨rfl, rfl, rfl⟩

/-- Witness for C2 at the empty environment. -/
theorem publish_missing_token_short_circuit_witness :
    (publish (mkEnv none none)).actions = [Action.error tokenErrorMsg] ∧
    (publish (mkEnv none none)).failed = true ∧
    (publish (mkEnv none none)).actions.all
      (fun a => !isInstall a && !isGenerator a && !isVCS a) = true :=
  publish_missing_token_short_circuit (mkEnv none none) rfl

/-- Claim C7: in every run of `serve`, exactly one browser-open action
occurs, it targets the fixed URL `http://127.0.0.1:8000/spok/`, it
happens before the blocking `mkdocs serve` invocation, and no
browser-open occurs from that invocation onward. -/
theorem serve_browser_once_before (e : Env) :
    (serve e).actions.filter isBrowserOpen = [Action.browserOpen serveURL] ∧
    ((serve e).actions.takeWhile
      (fun a => a != Action.run ["mkdocs", "serve"] false)).any
        isBrowserOpen = true ∧
    ((serve e).actions.dropWhile
      (fun a => a != Action.run ["mkdocs", "serve"] false)).all
        (fun a => !isBrowserOpen a) = true ∧
    (serve e).actions.any isServeCmd = true :=
  ⟨rfl, rfl, rfl, rfl⟩

/-- Claim C8: in every run of `build`, the generator's build subcommand
is invoked exactly once, with the clean-output flag, and `build` invokes
no blocking serve command, no browser-open and no version-control
command. -/
theorem build_clean_once (e : Env) :
    (build e).actions.filter isGenerator =
      [Action.run ["mkdocs", "build", "--clean"] false] ∧
    (build e).actions.all
      (fun a => !isServeCmd a && !isBrowserOpen a && !isVCS a) = true ∧
    (build e).failed = false :=
  ⟨rfl, rfl, rfl⟩

/-- Claim C9: the default session tuple fixed at definition time selects
`serve` and only `serve`. -/
theorem default_session_serve :
    nox_options_sessions = ["serve"] ∧ nox_options_sessions.length = 1 :=
  ⟨rfl, rfl⟩

/-- Claim C10: two environments that agree outside `CI` and
`GITHUB_TOKEN` produce identical `build` traces and identical `serve`
traces (neither session reads either variable). -/
theorem build_serve_env_independent (ea eb : Env)
    (_h : ∀ k, k ≠ "CI" → k ≠ "GITHUB_TOKEN" → ea k = eb k) :
    build ea = build eb ∧ serve ea = serve eb :=
  ⟨rfl, rfl⟩

/-- Witness for C10: two concrete environments differing only in `CI`. -/
theorem build_serve_env_independent_witness :
    build (mkEnv none (some "1")) = build (mkEnv none none) ∧
    serve (mkEnv none (some "1")) = serve (mkEnv none none) :=
  build_serve_env_independent (mkEnv none (some "1")) (mkEnv none none)
    (by
      intro k h1 h2
      simp [mkEnv, h1, h2])

/-- Claim C1 (amended): when `GITHUB_TOKEN` is set to a non-empty value
and `CI` is truthy, `publish` performs exactly the installs followed by
add-remote, fetch-remote, fetch-branch and the verbose clean deploy with
the remote name, in that order, and the remote URL passed to add-remote
contains the token. -/
theorem publish_ci_sequence (e : Env) (t : String)
    (htok : getenv e "GITHUB_TOKEN" = some t) (hne : t ≠ "")
    (hci : ON_CI e = true) :
    (publish e).actions =
      [Action.install pipUpgradeArgs,
       Action.install DOCS_DEPS,
       Action.run ["git", "remote", "add", "gh-token", remoteURL t] true,
       Action.run ["git", "fetch", "gh-token"] true,
       Action.run ["git", "fetch", "gh-token", "gh-pages:gh-pages"] true,
       Action.run ["mkdocs", "gh-deploy", "-v", "--clean",
         "--remote-name", "gh-token"] false] ∧
    (∃ pre post, remoteURL t = (pre ++ t) ++ post) := by
  refine ⟨?_, "https://", "@github.com/FollowTheProcess/spok.git", rfl⟩
  simp [publish, htok, hne, hci]

/-- Witness for C1 at a concrete environment. -/
theorem publish_ci_sequence_witness :
    (publish (mkEnv (some "s3cr3t") (some "true"))).actions =
      [Action.install pipUpgradeArgs,
       Action.install DOCS_DEPS,
       Action.run ["git", "remote", "add", "gh-token", remoteURL "s3cr3t"] true,
       Action.run ["git", "fetch", "gh-token"] true,
       Action.run ["git", "fetch", "gh-token", "gh-pages:gh-pages"] true,
       Action.run ["mkdocs", "gh-deploy", "-v", "--clean",
         "--remote-name", "gh-token"] false] ∧
    (∃ pre post, remoteURL "s3cr3t" = (pre ++ "s3cr3t") ++ post) :=
  publish_ci_sequence (mkEnv (some "s3cr3t") (some "true")) "s3cr3t"
    rfl (by decide) rfl

/-- Counterexample to C1 as stated: with `GITHUB_TOKEN` present but
empty and `CI` present, `publish` aborts with the precondition error and
issues no version-control and no generator command at all. -/
theorem publish_ci_sequence_cex :
    (getenv (mkEnv (some "") (some "1")) "GITHUB_TOKEN").isSome = true ∧
    (getenv (mkEnv (some "") (some "1")) "CI").isSome = true ∧
    (publish (mkEnv (some "") (some "1"))).actions =
      [Action.error tokenErrorMsg] ∧
    (publish (mkEnv (some "") (some "1"))).actions.all
      (fun a => !isVCS a && !isGenerator a) = true :=
  ⟨rfl, rfl, rfl, rfl⟩

/-- Claim C3 (amended): `publish` fails with the precondition error
exactly when `GITHUB_TOKEN` is absent or set to the empty string. -/
theorem publish_precondition_iff (e : Env) :
    ((publish e).failed = true ∧
      (publish e).actions = [Action.error tokenErrorMsg]) ↔
    (getenv e "GITHUB_TOKEN" = none ∨ getenv e "GITHUB_TOKEN" = some "") := by
  rcases h : getenv e "GITHUB_TOKEN" with _ | t
  · simp [publish, h]
  · by_cases ht : t = ""
    · subst ht
      simp [publish, h]
    · simp [publish, h, ht]

/-- Counterexample to C3 as stated: with `GITHUB_TOKEN` set (to the
empty string) `publish` still fails with the precondition error, so the
failure is not equivalent to the variable being unset. -/
theorem publish_precondition_cex :
    (getenv (mkEnv (some "") none) "GITHUB_TOKEN").isSome = true ∧
    (publish (mkEnv (some "") none)).failed = true ∧
    (publish (mkEnv (some "") none)).actions = [Action.error tokenErrorMsg] :=
  ⟨rfl, rfl, rfl⟩

/-- Claim C4 (amended): `ON_CI` holds exactly when `CI` is set to a
non-empty value, and (when the token precondition passes) `publish`
takes the continuous-integration branch exactly when `ON_CI` holds. -/
theorem publish_ci_branch_iff (e : Env) (t : String)
    (htok : getenv e "GITHUB_TOKEN" = some t) (hne : t ≠ "") :
    (ON_CI e = true ↔ ∃ s, getenv e "CI" = some s ∧ s ≠ "") ∧
    ((publish e).actions.any isVCS = true ↔ ON_CI e = true) := by
  constructor
  · rcases hc : getenv e "CI" with _ | s
    · simp [ON_CI, truthy, hc]
    · simp [ON_CI, truthy, hc]
  · cases hci : ON_CI e with
    | true =>
      have hA : (publish e).actions =
          [Action.install pipUpgradeArgs,
           Action.install DOCS_DEPS,
           Action.run ["git", "remote", "add", "gh-token", remoteURL t] true,
           Action.run ["git", "fetch", "gh-token"] true,
           Action.run ["git", "fetch", "gh-token", "gh-pages:gh-pages"] true,
           Action.run ["mkdocs", "gh-deploy", "-v", "--clean",
             "--remote-name", "gh-token"] false] := by
        simp [publish, htok, hne, hci]
      rw [hA]
      exact ⟨fun _ => rfl, fun _ => rfl⟩
    | false =>
      have hA : (publish e).actions =
          [Action.install pipUpgradeArgs,
           Action.install DOCS_DEPS,
           Action.run ["mkdocs", "gh-deploy"] false] := by
        simp [publish, htok, hne, hci]
      rw [hA]
      decide

/-- Witness for C4 at a concrete environment. -/
theorem publish_ci_branch_iff_witness :
    (ON_CI (mkEnv (some "tok") (some "yes")) = true ↔
      ∃ s, getenv (mkEnv (some "tok") (some "yes")) "CI" = some s ∧ s ≠ "") ∧
    ((publish (mkEnv (some "tok") (some "yes"))).actions.any isVCS = true ↔
      ON_CI (mkEnv (some "tok") (some "yes")) = true) :=
  publish_ci_branch_iff (mkEnv (some "tok") (some "yes")) "tok" rfl (by decide)

/-- Counterexample to C4 as stated: with `CI` present but empty (and a
valid token), `publish` does not take the CI branch: it runs no
version-control command and succeeds via the plain deploy. -/
theorem publish_ci_branch_cex :
    (getenv (mkEnv (some "tok") (some "")) "CI").isSome = true ∧
    (publish (mkEnv (some "tok") (some ""))).actions.any isVCS = false ∧
    (publish (mkEnv (some "tok") (some ""))).failed = false :=
  ⟨rfl, rfl, rfl⟩

/-- Claim C5 (amended): when `GITHUB_TOKEN` is set to a non-empty value
and `CI` is unset, `publish` invokes exactly one deploy-type command,
carries no remote-name argument anywhere, and runs no version-control
command. -/
theorem publish_local_deploy (e : Env) (t : String)
    (htok : getenv e "GITHUB_TOKEN" = some t) (hne : t ≠ "")
    (hci : getenv e "CI" = none) :
    ((publish e).actions.filter isDeploy).length = 1 ∧
    (publish e).actions.all
      (fun a => !hasRemoteNameFlag a && !isVCS a) = true := by
  have hA : (publish e).actions =
      [Action.install pipUpgradeArgs,
       Action.install DOCS_DEPS,
       Action.run ["mkdocs", "gh-deploy"] false] := by
    simp [publish, htok, hne, ON_CI, truthy, hci]
  constructor
  · rw [hA]
    rfl
  · rw [hA]
    rfl

/-- Witness for C5 at a concrete environment. -/
theorem publish_local_deploy_witness :
    ((publish (mkEnv (some "loc") none)).actions.filter isDeploy).length = 1 ∧
    (publish (mkEnv (some "loc") none)).actions.all
      (fun a => !hasRemoteNameFlag a && !isVCS a) = true :=
  publish_local_deploy (mkEnv (some "loc") none) "loc" rfl (by decide) rfl

/-- Counterexample to C5 as stated: with `GITHUB_TOKEN` present but
empty and `CI` unset, `publish` aborts and invokes zero deploy-type
commands rather than exactly one. -/
theorem publish_local_deploy_cex :
    (getenv (mkEnv (some "") none) "GITHUB_TOKEN").isSome = true ∧
    getenv (mkEnv (some "") none) "CI" = none ∧
    ((publish (mkEnv (some "") none)).actions.filter isDeploy).length = 0 :=
  ⟨rfl, rfl, rfl⟩

/-- Claim C6 (amended): for `build`, `serve`, and `publish` with a
non-empty credential, the documentation-dependency install step receives
the same fixed list of three package names, and no site-generator
invocation occurs before that install in any of the three traces. -/
theorem docs_deps_uniform (e : Env) (t : String)
    (htok : getenv e "GITHUB_TOKEN" = some t) (hne : t ≠ "") :
    DOCS_DEPS.length = 3 ∧ DOCS_DEPS ≠ [] ∧
    docsInstallArgs (build e) = some DOCS_DEPS ∧
    docsInstallArgs (serve e) = some DOCS_DEPS ∧
    docsInstallArgs (publish e) = some DOCS_DEPS ∧
    generatorsAfterDocsInstall (build e) = true ∧
    generatorsAfterDocsInstall (serve e) = true ∧
    generatorsAfterDocsInstall (publish e) = true := by
  cases hci : ON_CI e with
  | true =>
    have hA : (publish e).actions =
        [Action.install pipUpgradeArgs,
         Action.install DOCS_DEPS,
         Action.run ["git", "remote", "add", "gh-token", remoteURL t] true,
         Action.run ["git", "fetch", "gh-token"] true,
         Action.run ["git", "fetch", "gh-token", "gh-pages:gh-pages"] true,
         Action.run ["mkdocs", "gh-deploy", "-v", "--clean",
           "--remote-name", "gh-token"] false] := by
      simp [publish, htok, hne, hci]
    refine ⟨rfl, by decide, rfl, rfl, ?_, rfl, rfl, ?_⟩
    · simp only [docsInstallArgs]
      rw [hA]
      rfl
    · simp only [generatorsAfterDocsInstall]
      rw [hA]
      rfl
  | false =>
    have hA : (publish e).actions =
        [Action.install pipUpgradeArgs,
         Action.install DOCS_DEPS,
         Action.run ["mkdocs", "gh-deploy"] false] := by
      simp [publish, htok, hne, hci]
    refine ⟨rfl, by decide, rfl, rfl, ?_, rfl, rfl, ?_⟩
    · simp only [docsInstallArgs]
      rw [hA]
      rfl
    · simp only [generatorsAfterDocsInstall]
      rw [hA]
      rfl

/-- Witness for C6 at a concrete environment. -/
theorem docs_deps_uniform_witness :
    DOCS_DEPS.length = 3 ∧ DOCS_DEPS ≠ [] ∧
    docsInstallArgs (build (mkEnv (some "w1") none)) = some DOCS_DEPS ∧
    docsInstallArgs (serve (mkEnv (some "w1") none)) = some DOCS_DEPS ∧
    docsInstallArgs (publish (mkEnv (some "w1") none)) = some DOCS_DEPS ∧
    generatorsAfterDocsInstall (build (mkEnv (some "w1") none)) = true ∧
    generatorsAfterDocsInstall (serve (mkEnv (some "w1") none)) = true ∧
    generatorsAfterDocsInstall (publish (mkEnv (some "w1") none)) = true :=
  docs_deps_uniform (mkEnv (some "w1") none) "w1" rfl (by decide)

/-- Counterexample to C6 as stated: with the credential present but
empty, the `publish` trace has no documentation-dependency install step
at all, so no list is passed to that step. -/
theorem docs_deps_uniform_cex :
    (getenv (mkEnv (some "") (some "x")) "GITHUB_TOKEN").isSome = true ∧
    docsInstallArgs (publish (mkEnv (some "") (some "x"))) = none ∧
    (publish (mkEnv (some "") (some "x"))).actions.all
      (fun a => !isInstall a) = true :=
  ⟨rfl, rfl, rfl⟩

end Spok
